import Mathlib

/-!
Verification of the ferris-focus Pomodoro core: the timer state machine
(`timer.rs`), the progression engine (`xp.rs`), the profile/session data
model (`models.rs`), and the profile-updating part of the session-completion
handler (`main.rs`, `on_session_complete`).

Modelling conventions:
* `u32` values are modelled as `Nat`.  In `calculate_xp` the intermediate
  product `current_streak * STREAK_BONUS_PER_DAY` exceeds the `u32` range for
  inputs that are themselves valid `u32` values, so that multiplication is
  modelled with the explicit wrap-around modulo 2^32 of release-mode Rust.
  The other arithmetic in scope (countdown decrements, counter increments by
  one, XP sums below the cap times session counts considered here) is
  modelled as plain `Nat` arithmetic.
* Calendar dates (`chrono::NaiveDate`) are modelled as integer day numbers;
  `(today - last_date).num_days()` is exact integer subtraction for naive
  dates, modelled as subtraction on `Int`.
* The two ISO-8601 timestamp strings of a `Session` record are irrelevant to
  every claim below and are omitted from the `Session` model.
-/

namespace FerrisFocus

/-- Constants from `models.rs`. -/
def FOCUS_DURATION_SECS : Nat := 25 * 60

/-- Short-break duration from `models.rs`. -/
def SHORT_BREAK_SECS : Nat := 5 * 60

/-- Long-break duration from `models.rs`. -/
def LONG_BREAK_SECS : Nat := 15 * 60

/-- Focus sessions between long breaks, from `models.rs`. -/
def SESSIONS_BEFORE_LONG_BREAK : Nat := 4

/-- `SessionType` from `models.rs`. -/
inductive SessionType : Type
  | Focus
  | ShortBreak
  | LongBreak
deriving DecidableEq

/-- `TimerState` from `timer.rs`. -/
inductive TimerState : Type
  | Idle
  | Running (remaining_secs : Nat) (session_type : SessionType)
  | Paused (remaining_secs : Nat) (session_type : SessionType)
  | Finished (session_type : SessionType)
deriving DecidableEq

/-- `Timer` from `timer.rs`. -/
structure Timer : Type where
  state : TimerState
  focus_sessions_completed : Nat
deriving DecidableEq

/-- `Timer::new` from `timer.rs`. -/
def Timer.new : Timer :=
  { state := TimerState.Idle, focus_sessions_completed := 0 }

/-- `Timer::start` from `timer.rs`. -/
def Timer.start (t : Timer) (session_type : SessionType) : Timer :=
  let duration : Nat :=
    match session_type with
    | SessionType.Focus => FOCUS_DURATION_SECS
    | SessionType.ShortBreak => SHORT_BREAK_SECS
    | SessionType.LongBreak => LONG_BREAK_SECS
  { t with state := TimerState.Running duration session_type }

/-- `Timer::next_session_type` from `timer.rs`. -/
def Timer.next_session_type (t : Timer) : SessionType :=
  match t.state with
  | TimerState.Finished session_type =>
    match session_type with
    | SessionType.Focus =>
      if t.focus_sessions_completed > 0
          ∧ t.focus_sessions_completed % SESSIONS_BEFORE_LONG_BREAK = 0 then
        SessionType.LongBreak
      else
        SessionType.ShortBreak
    | SessionType.ShortBreak => SessionType.Focus
    | SessionType.LongBreak => SessionType.Focus
  | _ => SessionType.Focus

/-- `Timer::tick` from `timer.rs`: the mutated timer together with the
returned `bool` ("finished"). -/
def Timer.tick (t : Timer) : Timer × Bool :=
  match t.state with
  | TimerState.Running remaining_secs session_type =>
    if remaining_secs ≤ 1 then
      ({ state := TimerState.Finished session_type,
         focus_sessions_completed :=
           if session_type = SessionType.Focus then
             t.focus_sessions_completed + 1
           else
             t.focus_sessions_completed }, true)
    else
      ({ t with state := TimerState.Running (remaining_secs - 1) session_type },
       false)
  | _ => (t, false)

/-- `Timer::pause` from `timer.rs`. -/
def Timer.pause (t : Timer) : Timer :=
  match t.state with
  | TimerState.Running remaining_secs session_type =>
    { t with state := TimerState.Paused remaining_secs session_type }
  | _ => t

/-- `Timer::resume` from `timer.rs`. -/
def Timer.resume (t : Timer) : Timer :=
  match t.state with
  | TimerState.Paused remaining_secs session_type =>
    { t with state := TimerState.Running remaining_secs session_type }
  | _ => t

/-- `Timer::reset` from `timer.rs`. -/
def Timer.reset (t : Timer) : Timer :=
  { t with state := TimerState.Idle }

/-- `Timer::remaining_display` from `timer.rs`. -/
def Timer.remaining_display (t : Timer) : Nat × Nat :=
  let secs : Nat :=
    match t.state with
    | TimerState.Running remaining_secs _ => remaining_secs
    | TimerState.Paused remaining_secs _ => remaining_secs
    | _ => 0
  (secs / 60, secs % 60)

/-- `Timer::total_duration_secs` from `timer.rs`. -/
def Timer.total_duration_secs (t : Timer) : Nat :=
  let session_type : Option SessionType :=
    match t.state with
    | TimerState.Running _ session_type => some session_type
    | TimerState.Paused _ session_type => some session_type
    | _ => none
  match session_type with
  | some SessionType.Focus => FOCUS_DURATION_SECS
  | some SessionType.ShortBreak => SHORT_BREAK_SECS
  | some SessionType.LongBreak => LONG_BREAK_SECS
  | none => FOCUS_DURATION_SECS

/-- `Timer::current_session_type` from `timer.rs`. -/
def Timer.current_session_type (t : Timer) : Option SessionType :=
  match t.state with
  | TimerState.Running _ session_type => some session_type
  | TimerState.Paused _ session_type => some session_type
  | TimerState.Finished session_type => some session_type
  | TimerState.Idle => none

/-- `Timer::is_running` from `timer.rs`. -/
def Timer.is_running (t : Timer) : Bool :=
  match t.state with
  | TimerState.Running _ _ => true
  | _ => false

/-- `Timer::is_paused` from `timer.rs`. -/
def Timer.is_paused (t : Timer) : Bool :=
  match t.state with
  | TimerState.Paused _ _ => true
  | _ => false

/-- `Timer::is_finished` from `timer.rs`. -/
def Timer.is_finished (t : Timer) : Bool :=
  match t.state with
  | TimerState.Finished _ => true
  | _ => false

/-- Iterating `Timer.tick` `n` times, keeping the timer. -/
def tickN (t : Timer) : Nat → Timer
  | 0 => t
  | n + 1 => ((tickN t n).tick).1

/-- Constants from `xp.rs`. -/
def BASE_XP : Nat := 100

/-- Streak bonus per day from `xp.rs`. -/
def STREAK_BONUS_PER_DAY : Nat := 10

/-- Streak bonus cap from `xp.rs`. -/
def MAX_STREAK_BONUS : Nat := 200

/-- XP per level from `xp.rs`. -/
def XP_PER_LEVEL : Nat := 500

/-- The `u32` modulus. -/
def U32_MOD : Nat := 4294967296

/-- `calculate_xp` from `xp.rs`.  The source computes
`(current_streak * STREAK_BONUS_PER_DAY).min(MAX_STREAK_BONUS)` in `u32`;
the product wraps modulo 2^32 for `current_streak ≥ 429496730`, which is
modelled explicitly.  The final addition stays below 2^32. -/
def calculate_xp (current_streak : Nat) : Nat :=
  let bonus := min ((current_streak * STREAK_BONUS_PER_DAY) % U32_MOD) MAX_STREAK_BONUS
  BASE_XP + bonus

/-- `calculate_level` from `xp.rs` (`u32` division is `Nat` division). -/
def calculate_level (total_xp : Nat) : Nat :=
  total_xp / XP_PER_LEVEL + 1

/-- `update_streak` from `xp.rs`; dates are integer day numbers and
`(today - last_date).num_days()` is integer subtraction. -/
def update_streak (last_session_date : Option Int) (today : Int)
    (current_streak : Nat) : Nat :=
  match last_session_date with
  | none => 1
  | some last_date =>
    let diff : Int := today - last_date
    if diff = 0 then max current_streak 1
    else if diff = 1 then current_streak + 1
    else 1

/-- `UserProfile` from `models.rs`. -/
structure UserProfile : Type where
  total_xp : Nat
  level : Nat
  current_streak : Nat
  longest_streak : Nat
  last_session_date : Option Int
deriving DecidableEq

/-- `Default for UserProfile` from `models.rs`. -/
def UserProfile.default : UserProfile :=
  { total_xp := 0, level := 1, current_streak := 0, longest_streak := 0,
    last_session_date := none }

/-- `Session` from `models.rs` (the two ISO timestamp strings are omitted:
no claim mentions them). -/
structure Session : Type where
  id : Option Int
  duration_secs : Nat
  session_type : SessionType
  completed : Bool
deriving DecidableEq

/-- The `Session` record built inside `on_session_complete` in `main.rs`:
`duration_secs` is `app.timer.total_duration_secs()` read from the timer as
it stands when the handler runs. -/
def build_session (timer : Timer) (session_type : SessionType) : Session :=
  { id := none,
    duration_secs := timer.total_duration_secs,
    session_type := session_type,
    completed := true }

/-- The profile-updating part of `on_session_complete` from `main.rs`,
applied to the completed session's type: the sequence of profile mutations
performed for a Focus session, and no mutation otherwise.  Returns the
updated profile together with `xp_earned`. -/
def on_session_complete (p : UserProfile) (today : Int)
    (session_type : SessionType) : UserProfile × Option Nat :=
  if session_type = SessionType.Focus then
    let new_streak := update_streak p.last_session_date today p.current_streak
    let p1 := { p with current_streak := new_streak }
    let p2 :=
      if new_streak > p1.longest_streak then
        { p1 with longest_streak := new_streak }
      else p1
    let p3 := { p2 with last_session_date := some today }
    let xp := calculate_xp p3.current_streak
    let p4 := { p3 with total_xp := p3.total_xp + xp }
    let p5 := { p4 with level := calculate_level p4.total_xp }
    (p5, some xp)
  else
    (p, none)

/-- Claim C3: for every date `today` and streak `s`, `update_streak` returns
1 when there is no last session date; `max s 1` when `today` and the last
date coincide; `s + 1` when the difference is exactly one day; and 1 in
every other case, including a negative difference. -/
theorem update_streak_complete_cases (today d : Int) (s : Nat) :
    update_streak none today s = 1 ∧
    (today - d = 0 → update_streak (some d) today s = max s 1) ∧
    (today - d = 1 → update_streak (some d) today s = s + 1) ∧
    (today - d ≠ 0 → today - d ≠ 1 → update_streak (some d) today s = 1) := by
  refine ⟨rfl, ?_, ?_, ?_⟩
  · intro h
    simp [update_streak, h]
  · intro h
    simp [update_streak, h]
  · intro h h2
    simp [update_streak, h, h2]

/-- Witness for C3: consecutive day increments (5 - 4 = 1), and a clock
moved backward (5 - 7 = -2) resets to 1. -/
theorem update_streak_complete_cases_witness :
    update_streak (some 4) 5 3 = 3 + 1 ∧ update_streak (some 7) 5 3 = 1 :=
  ⟨(update_streak_complete_cases 5 4 3).2.2.1 (by decide),
   (update_streak_complete_cases 5 7 3).2.2.2 (by decide) (by decide)⟩

/-- Claim C4: `next_session_type` from `Finished Focus` returns `LongBreak`
exactly when `focus_sessions_completed` is a positive multiple of 4, else
`ShortBreak`; from `Finished ShortBreak` or `Finished LongBreak` it returns
`Focus`; from `Idle`, `Running` and `Paused` it returns `Focus`.  (It is a
pure function of the timer in this embedding, so it mutates nothing.) -/
theorem next_session_type_complete_cases (t : Timer) :
    (t.state = TimerState.Finished SessionType.Focus →
      ((t.focus_sessions_completed > 0 ∧ t.focus_sessions_completed % 4 = 0) →
        t.next_session_type = SessionType.LongBreak) ∧
      (¬ (t.focus_sessions_completed > 0 ∧ t.focus_sessions_completed % 4 = 0) →
        t.next_session_type = SessionType.ShortBreak)) ∧
    (t.state = TimerState.Finished SessionType.ShortBreak →
      t.next_session_type = SessionType.Focus) ∧
    (t.state = TimerState.Finished SessionType.LongBreak →
      t.next_session_type = SessionType.Focus) ∧
    (t.state = TimerState.Idle → t.next_session_type = SessionType.Focus) ∧
    (∀ r st, t.state = TimerState.Running r st →
      t.next_session_type = SessionType.Focus) ∧
    (∀ r st, t.state = TimerState.Paused r st →
      t.next_session_type = SessionType.Focus) := by
  obtain ⟨s, c⟩ := t
  cases s with
  | Idle => simp [Timer.next_session_type]
  | Running r st => simp [Timer.next_session_type]
  | Paused r st => simp [Timer.next_session_type]
  | Finished st =>
    cases st with
    | Focus =>
      refine ⟨fun _ => ⟨fun h => ?_, fun h => ?_⟩, by simp, by simp, by simp,
        by simp, by simp⟩
      · simp [Timer.next_session_type, SESSIONS_BEFORE_LONG_BREAK, h]
      · simp [Timer.next_session_type, SESSIONS_BEFORE_LONG_BREAK, h]
    | ShortBreak => simp [Timer.next_session_type]
    | LongBreak => simp [Timer.next_session_type]

/-- Witness for C4: after 4 completed focus sessions, `Finished Focus`
yields `LongBreak`; after 3 it yields `ShortBreak`. -/
theorem next_session_type_complete_cases_witness :
    (Timer.mk (TimerState.Finished SessionType.Focus) 4).next_session_type =
      SessionType.LongBreak ∧
    (Timer.mk (TimerState.Finished SessionType.Focus) 3).next_session_type =
      SessionType.ShortBreak :=
  ⟨((next_session_type_complete_cases
      (Timer.mk (TimerState.Finished SessionType.Focus) 4)).1 rfl).1 (by decide),
   ((next_session_type_complete_cases
      (Timer.mk (TimerState.Finished SessionType.Focus) 3)).1 rfl).2 (by decide)⟩

/-- Counterexample to C6 as stated: the claim quantifies over every 32-bit
streak, but at `s = 429496730` the `u32` product `s * 10` wraps modulo 2^32
to 4, so `calculate_xp` returns 104, not the claimed constant 300 beyond
`s = 20` (and not `100 + min(s * 10, 200) = 300` read over the integers). -/
theorem calculate_xp_wrap_counterexample :
    calculate_xp 429496730 = 104 ∧ (20 : Nat) < 429496730 ∧
      calculate_xp 429496730 ≠ 300 := by
  refine ⟨?_, by norm_num, ?_⟩ <;>
    norm_num [calculate_xp, BASE_XP, STREAK_BONUS_PER_DAY, MAX_STREAK_BONUS,
      U32_MOD]

/-- Claim C6 (amended): `calculate_xp s = 100 + min((s * 10) mod 2^32, 200)`;
it is always between 100 and 300, equals `100 + 10 * s` for `s ≤ 20` (hence
is non-decreasing up to 20), and equals 300 for `20 ≤ s ≤ 429496729`; beyond
that the `u32` product wraps and the value can drop below 300. -/
theorem calculate_xp_bounds_and_monotone (s : Nat) :
    calculate_xp s = 100 + min ((s * 10) % 4294967296) 200 ∧
    100 ≤ calculate_xp s ∧ calculate_xp s ≤ 300 ∧
    (s ≤ 20 → calculate_xp s = 100 + 10 * s) ∧
    (∀ r, s ≤ r → r ≤ 20 → calculate_xp s ≤ calculate_xp r) ∧
    (20 ≤ s → s ≤ 429496729 → calculate_xp s = 300) := by
  have hxp : ∀ u : Nat,
      calculate_xp u = 100 + min ((u * 10) % 4294967296) 200 := fun u => rfl
  have hsmall : ∀ u : Nat, u ≤ 429496729 → (u * 10) % 4294967296 = u * 10 := by
    intro u hu
    apply Nat.mod_eq_of_lt
    omega
  refine ⟨hxp s, ?_, ?_, ?_, ?_, ?_⟩
  · rw [hxp s]
    omega
  · rw [hxp s]
    omega
  · intro h
    rw [hxp s, hsmall s (by omega)]
    omega
  · intro r h1 h2
    rw [hxp s, hxp r, hsmall s (by omega), hsmall r (by omega)]
    omega
  · intro h1 h2
    rw [hxp s, hsmall s h2]
    omega

/-- Witness for C6 (amended): the cap value at `s = 25` and the linear
value at `s = 3`. -/
theorem calculate_xp_bounds_and_monotone_witness :
    calculate_xp 25 = 300 ∧ calculate_xp 3 = 100 + 10 * 3 :=
  ⟨(calculate_xp_bounds_and_monotone 25).2.2.2.2.2 (by decide) (by decide),
   (calculate_xp_bounds_and_monotone 3).2.2.2.1 (by decide)⟩

/-- Claim C7: `pause` outside `Running`, `resume` outside `Paused`, and
`tick` outside `Running` leave the whole timer unchanged; `tick` moreover
returns `false` there.  (All three are total functions in this embedding:
no error, no panic.) -/
theorem invalid_transition_noop (t : Timer) :
    (t.is_running = false → t.pause = t ∧ t.tick = (t, false)) ∧
    (t.is_paused = false → t.resume = t) := by
  obtain ⟨s, c⟩ := t
  cases s <;>
    simp [Timer.is_running, Timer.is_paused, Timer.pause, Timer.resume,
      Timer.tick]

/-- Witness for C7: on the freshly created idle timer all three calls are
no-ops. -/
theorem invalid_transition_noop_witness :
    Timer.new.pause = Timer.new ∧ Timer.new.tick = (Timer.new, false) ∧
      Timer.new.resume = Timer.new :=
  ⟨((invalid_transition_noop Timer.new).1 rfl).1,
   ((invalid_transition_noop Timer.new).1 rfl).2,
   (invalid_transition_noop Timer.new).2 rfl⟩

/-- Claim C8: completing a `ShortBreak` or `LongBreak` session leaves the
profile exactly as it was (every field) and earns no XP. -/
theorem break_completion_preserves_profile (p : UserProfile) (today : Int)
    (st : SessionType)
    (h : st = SessionType.ShortBreak ∨ st = SessionType.LongBreak) :
    on_session_complete p today st = (p, none) := by
  have hne : st ≠ SessionType.Focus := by
    rcases h with h | h <;> simp [h]
  simp [on_session_complete, hne]

/-- Witness for C8: a short break completed over the default profile. -/
theorem break_completion_preserves_profile_witness :
    on_session_complete UserProfile.default 0 SessionType.ShortBreak =
      (UserProfile.default, none) :=
  break_completion_preserves_profile UserProfile.default 0
    SessionType.ShortBreak (Or.inl rfl)

/-- Claim C9: if `current_streak ≤ longest_streak` holds before a Focus
completion, it holds after: the update sets `current_streak` to the new
streak and `longest_streak` to the maximum of the old value and the new
streak. -/
theorem focus_completion_preserves_streak_invariant (p : UserProfile)
    (today : Int) (h : p.current_streak ≤ p.longest_streak) :
    ((on_session_complete p today SessionType.Focus).1).current_streak ≤
      ((on_session_complete p today SessionType.Focus).1).longest_streak := by
  by_cases hgt :
    update_streak p.last_session_date today p.current_streak > p.longest_streak
  · simp [on_session_complete, hgt]
  · simp [on_session_complete, hgt]
    omega

/-- Witness for C9: the default profile (both streak fields 0) after one
Focus completion. -/
theorem focus_completion_preserves_streak_invariant_witness :
    ((on_session_complete UserProfile.default 0 SessionType.Focus).1).current_streak ≤
      ((on_session_complete UserProfile.default 0 SessionType.Focus).1).longest_streak :=
  focus_completion_preserves_streak_invariant UserProfile.default 0 (by decide)

/-- Claim C10: from any `Running` state, `pause` then `resume` restores the
very same timer — same `Running` state with the same `remaining_secs` and
`session_type` — so `remaining_display` is unchanged by the round trip. -/
theorem pause_resume_roundtrip (t : Timer) (r : Nat) (st : SessionType)
    (h : t.state = TimerState.Running r st) :
    t.pause.resume = t ∧
    t.pause.resume.state = TimerState.Running r st ∧
    t.pause.resume.remaining_display = t.remaining_display := by
  obtain ⟨s, c⟩ := t
  have h' : s = TimerState.Running r st := h
  subst h'
  exact ⟨rfl, rfl, rfl⟩

/-- Witness for C10: a running focus timer with 1499 seconds left. -/
theorem pause_resume_roundtrip_witness :
    (Timer.mk (TimerState.Running 1499 SessionType.Focus) 0).pause.resume =
      Timer.mk (TimerState.Running 1499 SessionType.Focus) 0 :=
  (pause_resume_roundtrip
    (Timer.mk (TimerState.Running 1499 SessionType.Focus) 0)
    1499 SessionType.Focus rfl).1

/-- Counterexample to C1 as stated: the handler computes the XP award from
the *post-update* streak, so the very first Focus completion over the
default profile (streak becomes 1) awards `calculate_xp 1 = 110` XP, not
the claimed 100. -/
theorem first_focus_award_counterexample :
    (on_session_complete UserProfile.default 0 SessionType.Focus).2 = some 110 ∧
    (on_session_complete UserProfile.default 0 SessionType.Focus).2 ≠ some 100 := by
  decide

/-- Claim C1 (amended): starting from the default profile, a Focus
completion on day `D` awards 110 XP (streak 1, level 1); a second on day
`D + 1` awards 120 XP (streak 2, total 230, level 1); a third on day
`D + 3` resets the streak to 1 and awards 110 XP (total 340, level 1) —
each award being `calculate_xp` of the post-update streak. -/
theorem three_focus_sessions_progression (D : Int) :
    on_session_complete UserProfile.default D SessionType.Focus =
      ({ total_xp := 110, level := 1, current_streak := 1, longest_streak := 1,
         last_session_date := some D }, some 110) ∧
    on_session_complete
        { total_xp := 110, level := 1, current_streak := 1, longest_streak := 1,
          last_session_date := some D } (D + 1) SessionType.Focus =
      ({ total_xp := 230, level := 1, current_streak := 2, longest_streak := 2,
         last_session_date := some (D + 1) }, some 120) ∧
    on_session_complete
        { total_xp := 230, level := 1, current_streak := 2, longest_streak := 2,
          last_session_date := some (D + 1) } (D + 3) SessionType.Focus =
      ({ total_xp := 340, level := 1, current_streak := 1, longest_streak := 2,
         last_session_date := some (D + 3) }, some 110) := by
  have h1 : D + 1 - D = (1 : Int) := by omega
  have h2 : D + 3 - (D + 1) = (2 : Int) := by omega
  refine ⟨?_, ?_, ?_⟩ <;>
    simp [on_session_complete, update_streak, calculate_xp, calculate_level,
      UserProfile.default, BASE_XP, STREAK_BONUS_PER_DAY, MAX_STREAK_BONUS,
      U32_MOD, XP_PER_LEVEL, h1, h2]

/-- Countdown lemma: from `Running r` with `k < r` ticks applied, the timer
is still `Running (r - k)` with the focus-session counter untouched. -/
theorem tickN_running_of_lt (st : SessionType) (c : Nat) :
    ∀ k r : Nat, k < r →
      tickN (Timer.mk (TimerState.Running r st) c) k =
        Timer.mk (TimerState.Running (r - k) st) c := by
  intro k
  induction k with
  | zero =>
    intro r _
    simp [tickN]
  | succ k ih =>
    intro r h
    have hk : k < r := Nat.lt_of_succ_lt h
    have h2 : ¬ (r - k ≤ 1) := by omega
    have h3 : r - k - 1 = r - (k + 1) := by omega
    simp only [tickN, ih r hk, Timer.tick, h2, if_false, h3]

/-- Claim C2: starting any timer on a Focus session (1500 seconds), the
first 1499 ticks return `false` and leave `focus_sessions_completed`
untouched, the 1500th tick returns `true`, and afterwards the state is
`Finished Focus` with `focus_sessions_completed` exactly one higher. -/
theorem focus_ticks_finish_exactly_at_1500 (t : Timer) :
    (∀ k, k < 1500 →
      (tickN (t.start SessionType.Focus) k).focus_sessions_completed =
        t.focus_sessions_completed) ∧
    (∀ k, k < 1499 →
      ((tickN (t.start SessionType.Focus) k).tick).2 = false) ∧
    ((tickN (t.start SessionType.Focus) 1499).tick).2 = true ∧
    (tickN (t.start SessionType.Focus) 1500).state =
      TimerState.Finished SessionType.Focus ∧
    (tickN (t.start SessionType.Focus) 1500).focus_sessions_completed =
      t.focus_sessions_completed + 1 := by
  obtain ⟨s, c⟩ := t
  have hstart : (Timer.mk s c).start SessionType.Focus =
      Timer.mk (TimerState.Running 1500 SessionType.Focus) c := rfl
  rw [hstart]
  have hstep : ∀ (u : Timer) (n : Nat), tickN u (n + 1) = ((tickN u n).tick).1 :=
    fun u n => rfl
  have hfin :
      (tickN (Timer.mk (TimerState.Running 1500 SessionType.Focus) c) 1499).tick =
        (Timer.mk (TimerState.Finished SessionType.Focus) (c + 1), true) := by
    rw [tickN_running_of_lt SessionType.Focus c 1499 1500 (by omega)]
    simp [Timer.tick]
  refine ⟨?_, ?_, ?_, ?_, ?_⟩
  · intro k hk
    rw [tickN_running_of_lt SessionType.Focus c k 1500 hk]
  · intro k hk
    rw [tickN_running_of_lt SessionType.Focus c k 1500 (by omega)]
    have h2 : ¬ (1500 - k ≤ 1) := by omega
    simp [Timer.tick, h2]
  · rw [hfin]
  · rw [show (1500 : Nat) = 1499 + 1 from rfl, hstep, hfin]
  · rw [show (1500 : Nat) = 1499 + 1 from rfl, hstep, hfin]

/-- Witness for C2: on a fresh timer, the first tick does not finish, five
ticks leave the counter untouched. -/
theorem focus_ticks_finish_exactly_at_1500_witness :
    ((tickN (Timer.new.start SessionType.Focus) 0).tick).2 = false ∧
    (tickN (Timer.new.start SessionType.Focus) 5).focus_sessions_completed =
      Timer.new.focus_sessions_completed :=
  ⟨(focus_ticks_finish_exactly_at_1500 Timer.new).2.1 0 (by decide),
   (focus_ticks_finish_exactly_at_1500 Timer.new).1 5 (by decide)⟩

/-- Claim C5: whenever `tick` reports a finished session (so the handler
runs with the timer already in `Finished`), the `Session` record it builds
carries `duration_secs = 1500` — the Focus duration — no matter which
session type just completed, because `total_duration_secs` falls back to
the Focus duration outside `Running`/`Paused`.  In particular a completed
short break (`SHORT_BREAK_SECS = 300`) is recorded with 1500 seconds. -/
theorem completed_session_recorded_with_focus_duration (t u : Timer)
    (st : SessionType) (h : t.tick = (u, true)) :
    (∃ ft, u.state = TimerState.Finished ft) ∧
    (build_session u st).duration_secs = 1500 ∧
    SHORT_BREAK_SECS = 300 := by
  obtain ⟨s, c⟩ := t
  cases s with
  | Idle => simp [Timer.tick] at h
  | Paused r ty => simp [Timer.tick] at h
  | Finished ty => simp [Timer.tick] at h
  | Running r ty =>
    simp only [Timer.tick] at h
    by_cases hr : r ≤ 1
    · rw [if_pos hr] at h
      have hu :
          Timer.mk (TimerState.Finished ty)
            (if ty = SessionType.Focus then c + 1 else c) = u :=
        congrArg Prod.fst h
      subst hu
      exact ⟨⟨ty, rfl⟩, rfl, rfl⟩
    · rw [if_neg hr] at h
      simp at h

/-- Witness for C5: a short break finishing on its last tick is recorded
with the Focus duration 1500, not 300. -/
theorem completed_session_recorded_with_focus_duration_witness :
    (build_session (Timer.mk (TimerState.Finished SessionType.ShortBreak) 0)
        SessionType.ShortBreak).duration_secs = 1500 :=
  (completed_session_recorded_with_focus_duration
    (Timer.mk (TimerState.Running 1 SessionType.ShortBreak) 0)
    (Timer.mk (TimerState.Finished SessionType.ShortBreak) 0)
    SessionType.ShortBreak (by decide)).2.1

end FerrisFocus
